import Mathlib

/-!
Verification of the UIAutodev bridge overlay panel script.

The definitions below are a shallow embedding of the browser-side panel
script (the floating "UIAutodev Bridge" panel): the rectangle regular
expression `BOUNDS_RE`, the request builder `postSelection`, the click
pipeline (`shouldIgnoreClick`, the capture-phase click listener,
`sendCurrentSelection`), the manual send button, the stop button, the
persisted configuration (`saveCfg` / restore / `updateCaptureUI`) and the
refresh click scheduler `scheduleRefreshClicks`.
-/

/-- Consume one expected literal character at the head of the list. -/
def expectChar (c : Char) : List Char → Option (List Char)
  | x :: xs => if x = c then some xs else none
  | [] => none

/-- Consume a non-empty greedy run of decimal digits (`\d+`). -/
def expectDigits (s : List Char) : Option (List Char) :=
  if (s.takeWhile Char.isDigit).isEmpty then none
  else some (s.dropWhile Char.isDigit)

/-- One coordinate pair of the rectangle pattern: matches the shape
`[digits,digits]` at the head of the character list and returns the
remaining characters.  Digit runs are taken greedily, which agrees with
the regular expression `\[(\d+),(\d+)\]` because the character after a
digit run is always a non-digit (`,` or `]`). -/
def matchCoordPair (s : List Char) : Option (List Char) :=
  (expectChar '[' s).bind (fun r1 =>
    (expectDigits r1).bind (fun r2 =>
      (expectChar ',' r2).bind (fun r3 =>
        (expectDigits r3).bind (fun r4 =>
          expectChar ']' r4))))

/-- Match the full rectangle pattern `[d+,d+][d+,d+]` at the head of the
list, returning the remainder. -/
def matchBoundsAt (s : List Char) : Option (List Char) :=
  (matchCoordPair s).bind matchCoordPair

/-- `BOUNDS_RE.test(s)` for the unanchored JavaScript regular expression
`/\[(\d+),(\d+)\]\[(\d+),(\d+)\]/`: true iff the pattern matches at some
position of `s`. -/
def boundsReTest : List Char → Bool
  | [] => false
  | c :: cs => (matchBoundsAt (c :: cs)).isSome || boundsReTest cs

/-- A string that consists of the rectangle pattern and nothing else
(the anchored reading `^\[\d+,\d+\]\[\d+,\d+\]$` used by the spec). -/
def exactBoundsForm (s : List Char) : Bool :=
  matchBoundsAt s == some []

/-- Leftmost match of the rectangle pattern inside `s`, as in
`s.match(BOUNDS_RE)[0]`: the matched substring itself. -/
def firstBoundsMatch : List Char → Option (List Char)
  | [] => none
  | c :: cs =>
    match matchBoundsAt (c :: cs) with
    | some rest => some ((c :: cs).take ((c :: cs).length - rest.length))
    | none => firstBoundsMatch cs

/-- JavaScript `parseInt(s, 10)`: skip leading spaces, optional sign,
then a non-empty run of decimal digits; `none` models `NaN`. -/
def parseDigits (cs : List Char) : Option Nat :=
  let ds := cs.takeWhile Char.isDigit
  if ds.isEmpty then none
  else some (ds.foldl (fun acc c => acc * 10 + (c.toNat - '0'.toNat)) 0)

def parseIntJS (s : String) : Option Int :=
  match s.data.dropWhile (fun c => c = ' ') with
  | '-' :: rest => (parseDigits rest).map (fun n => -(n : Int))
  | '+' :: rest => (parseDigits rest).map (fun n => (n : Int))
  | cs => (parseDigits cs).map (fun n => (n : Int))

/-- JavaScript `String.prototype.toLowerCase` (the panel only holds
ASCII action and direction names). -/
def toLowerJS (s : String) : String :=
  String.mk (s.data.map Char.toLower)

/-- JavaScript `String.prototype.trim`: strip leading and trailing
whitespace. -/
def trimJS (s : String) : String :=
  let ws : Char → Bool := fun c => c = ' ' ∨ c = '\t' ∨ c = '\n' ∨ c = '\r'
  String.mk (((s.data.dropWhile ws).reverse.dropWhile ws).reverse)

/-- JavaScript `x || d` on strings: the empty string is falsy. -/
def strOr (s d : String) : String := if s = "" then d else s

/-- JavaScript `n || fb` on numbers: `NaN` (`none`) and `0` are falsy. -/
def jsNumOr (v : Option Int) (fb : Int) : Int :=
  match v with
  | none => fb
  | some 0 => fb
  | some n => n

/-- The idiom `parseInt(raw || dflt, 10) || fb` used for every numeric
panel field. -/
def fieldInt (raw dflt : String) (fb : Int) : Int :=
  jsNumOr (parseIntJS (strOr raw dflt)) fb

/-- The live values of the panel's input fields together with the
auto-send checkbox, as read at send time.  Defaults are the initial
values in the panel's HTML. -/
structure PanelState where
  act : String := "short-click"
  durField : String := "600"
  capMode : String := "post"
  midDelayField : String := "50"
  waitField : String := "400"
  textField : String := ""
  dxField : String := "0"
  dyField : String := "0"
  dirField : String := "custom"
  distField : String := "0"
  bdField : String := ""
  autoChecked : Bool := true
deriving DecidableEq

/-- `($act.value || 'short-click').toLowerCase()`. -/
def actionOf (st : PanelState) : String := toLowerJS (strOr st.act "short-click")

/-- The JSON body assembled by `postSelection`; every optional field of
the JavaScript object literal is an `Option`. -/
structure Payload where
  action : String
  durationMs : Option Int
  tap : Bool
  midCapture : Option Bool
  midDelayMs : Option Int
  waitAfterMs : Option Int
  text : Option String
  dx : Option Int
  dy : Option Int
  direction : Option String
  distance : Option Int
  bounds : Option String
  xpath : Option String
deriving DecidableEq

/-- The body built by `postSelection` before the bounds check: `action`,
`durationMs` and `tap` unconditionally, then the capture-timing fields,
then the action-specific fields. -/
def buildBody (st : PanelState) : Payload :=
  let action := actionOf st
  let mode := strOr st.capMode "post"
  { action := action
  , durationMs := some (max 1 (fieldInt st.durField "600" 600))
  , tap := true
  , midCapture := if mode = "mid" then some true else none
  , midDelayMs := if mode = "mid" then some (max 0 (fieldInt st.midDelayField "50" 50)) else none
  , waitAfterMs := if mode = "mid" then none else some (max 0 (fieldInt st.waitField "400" 400))
  , text := if action = "input" then some st.textField else none
  , dx := if action = "swipe" then some (fieldInt st.dxField "0" 0) else none
  , dy := if action = "swipe" then some (fieldInt st.dyField "0" 0) else none
  , direction := if action = "swipe" then some (toLowerJS (strOr st.dirField "custom")) else none
  , distance := if action = "swipe" then some (fieldInt st.distField "0" 0) else none
  , bounds := none
  , xpath := none }

/-- Result of `postSelection` up to the `fetch` call: either the send is
aborted with a status message, or the finished body is posted. -/
inductive PostResult where
  | aborted (status : String)
  | sent (body : Payload)
deriving DecidableEq

/-- `postSelection({bounds})`: build the body; for every action other
than `back` require a truthy bounds string passing `BOUNDS_RE.test`,
else abort with the missing-bounds status before any network call. -/
def postSelection (st : PanelState) (bounds : String) : PostResult :=
  let body := buildBody st
  if actionOf st = "back" then
    PostResult.sent body
  else if bounds ≠ "" ∧ boundsReTest bounds.data = true then
    PostResult.sent { body with bounds := some bounds }
  else
    PostResult.aborted "缺少有效 Bounds（形如 [x1,y1][x2,y2]）"

/-- The host application's state as seen by `extractBounds`:
`selectedBounds` is the bounds string of the selected node object when
one is exposed (`node.bounds || node.attributes.bounds || ''`), and
`panelTexts` is the rendered text of the candidate attribute/detail
regions, in document order. -/
structure HostState where
  selectedBounds : Option String := none
  panelTexts : List String := []

/-- Scan the candidate regions for the first `BOUNDS_RE` match and
return the matched substring (`m[0]`). -/
def scanCandidates : List String → Option String
  | [] => none
  | t :: ts =>
    match firstBoundsMatch t.data with
    | some m => some (String.mk m)
    | none => scanCandidates ts

/-- `extractBounds()`: prefer the selected node's bounds if it passes
`BOUNDS_RE.test`, otherwise scan the candidate regions; return `none`
(JavaScript `undefined`) when nothing matches. -/
def extractBounds (h : HostState) : Option String :=
  match h.selectedBounds with
  | some b => if boundsReTest b.data then some b else scanCandidates h.panelTexts
  | none => scanCandidates h.panelTexts

/-- Outcome of one send attempt: auto-send disabled (plain return),
aborted with only a status message, or handed to `postSelection`
(recording the value written back to the Bounds field, if any). -/
inductive SendOutcome where
  | noSend
  | statusOnly (msg : String)
  | posted (bdWritten : Option String) (r : PostResult)
deriving DecidableEq

/-- The HTTP POSTs produced by a send attempt (at most one). -/
def fetchesOf : SendOutcome → List Payload
  | SendOutcome.noSend => []
  | SendOutcome.statusOnly _ => []
  | SendOutcome.posted _ (PostResult.aborted _) => []
  | SendOutcome.posted _ (PostResult.sent b) => [b]

/-- `sendCurrentSelection`: bail out if auto-send is unchecked; `back`
posts immediately without bounds; otherwise extract bounds from the
host, abort with a status message when none is found or it fails
`BOUNDS_RE.test`, else write it to the Bounds field and post. -/
def sendCurrentSelection (st : PanelState) (h : HostState) : SendOutcome :=
  if st.autoChecked = true then
    if actionOf st = "back" then
      SendOutcome.posted none (postSelection st "")
    else
      match extractBounds h with
      | none => SendOutcome.statusOnly "未找到有效 Bounds（请先在 UIAutodev 中选中一个节点）"
      | some bd =>
        if bd = "" ∨ boundsReTest bd.data = false then
          SendOutcome.statusOnly "未找到有效 Bounds（请先在 UIAutodev 中选中一个节点）"
        else
          SendOutcome.posted (some bd) (postSelection st bd)
  else
    SendOutcome.noSend

/-- The manual send button `$send.onclick`: validate the trimmed Bounds
field with `BOUNDS_RE.test` for every action other than `back`, then
post. -/
def manualSend (st : PanelState) : SendOutcome :=
  let bd := (trimJS st.bdField)
  if actionOf st ≠ "back" ∧ boundsReTest bd.data = false then
    SendOutcome.statusOnly "请填写有效的 Bounds（形如 [x1,y1][x2,y2]）"
  else
    SendOutcome.posted none (postSelection st bd)

/-- An observed click event: whether its target lies in the overlay
panel's subtree, whether the refresh control is located and the target
is it or inside it, whether an ancestor carries an ignore marker, and
the `isTrusted` flag. -/
structure ClickEvent where
  inPanel : Bool := false
  inRefresh : Bool := false
  inIgnoreMarker : Bool := false
  isTrusted : Bool := true
deriving DecidableEq

/-- `shouldIgnoreClick(e)`: ignore clicks inside the panel, on or inside
the located refresh control, or inside a marked ignore region. -/
def shouldIgnoreClick (e : ClickEvent) : Bool :=
  e.inPanel || e.inRefresh || e.inIgnoreMarker

/-- The capture-phase document click listener: evaluate
`shouldIgnoreClick` first (for trusted and synthetic clicks alike),
then drop untrusted clicks, then run `sendCurrentSelection`. -/
def clickListener (st : PanelState) (h : HostState) (e : ClickEvent) : SendOutcome :=
  if shouldIgnoreClick e = true then SendOutcome.noSend
  else if e.isTrusted = false then SendOutcome.noSend
  else sendCurrentSelection st h

/-- The bridge service's JSON response body as read by the script. -/
structure BridgeData where
  ok : Bool := false
  elemId : String := ""
  centerX : Int := 0
  centerY : Int := 0
  captureTiming : Option String := none
  error : Option String := none

/-- The HTTP response: `respOk` is `resp.ok`, `status` the HTTP status
code, `data` the parsed body. -/
structure FetchResponse where
  respOk : Bool := true
  status : Nat := 200
  data : BridgeData := {}

/-- Status text on success:
`OK[ct] elem=... center=(x,y)` with `ct` present only when
`data.capture_timing` is truthy. -/
def successStatus (d : BridgeData) : String :=
  let ct := match d.captureTiming with
            | some s => if s = "" then "" else "[" ++ s ++ "]"
            | none => ""
  "OK" ++ ct ++ " elem=" ++ d.elemId ++ " center=(" ++ toString d.centerX ++ "," ++ toString d.centerY ++ ")"

/-- Status text on failure: `失败 ${data.error || resp.status}`. -/
def failStatus (r : FetchResponse) : String :=
  "失败 " ++ (match r.data.error with
              | some e => if e = "" then toString r.status else e
              | none => toString r.status)

/-- Net effect of one `postSelection` call given the response: the
bodies actually POSTed, the final status text, and how many times the
refresh scheduler was invoked. -/
structure PostEffect where
  fetched : List Payload
  statusText : String
  refreshInvocations : Nat
deriving DecidableEq

/-- Run `postSelection` and the response handling that follows it: the
refresh scheduler is invoked exactly once, and only on
`resp.ok && data.ok`. -/
def postSelectionRun (st : PanelState) (bounds : String) (r : FetchResponse) : PostEffect :=
  match postSelection st bounds with
  | PostResult.aborted msg => { fetched := [], statusText := msg, refreshInvocations := 0 }
  | PostResult.sent body =>
    if r.respOk = true ∧ r.data.ok = true then
      { fetched := [body], statusText := successStatus r.data, refreshInvocations := 1 }
    else
      { fetched := [body], statusText := failStatus r, refreshInvocations := 0 }

/-- Outcome of the zero-body final-screenshot POST issued by the stop
button. -/
inductive StopNet where
  | okFile (file : String)
  | failure (msg : String)
  | exc (msg : String)

/-- `$stop.onclick`: uncheck auto-send first, then POST
`/bridge/final_screenshot`; returns the panel state after the handler,
the status text, and the number of refresh-scheduler invocations. -/
def stopClick (st : PanelState) (net : StopNet) : PanelState × String × Nat :=
  let st1 := { st with autoChecked := false }
  match net with
  | StopNet.okFile f => (st1, "已停止，最终截图: " ++ f, 1)
  | StopNet.failure m => (st1, "停止/截图失败 " ++ m, 0)
  | StopNet.exc m => (st1, "停止异常 " ++ m, 0)

/-- The JSON blob persisted under the `UIA_BRIDGE_CFG` key; every field
is optional because `Object.assign` merges partial deltas. -/
structure StoredCfg where
  xpathSelector : Option String := none
  capMode : Option String := none
  midDelayMs : Option Int := none
  waitAfterMs : Option Int := none
deriving DecidableEq

/-- Right-biased field merge of `Object.assign({}, cfg, delta)`. -/
def ovr {α : Type} (d b : Option α) : Option α :=
  match d with
  | some x => some x
  | none => b

/-- `saveCfg(delta)`: read the stored blob, overwrite the fields present
in `delta`, write it back. -/
def saveCfg (store delta : StoredCfg) : StoredCfg :=
  { xpathSelector := ovr delta.xpathSelector store.xpathSelector
  , capMode := ovr delta.capMode store.capMode
  , midDelayMs := ovr delta.midDelayMs store.midDelayMs
  , waitAfterMs := ovr delta.waitAfterMs store.waitAfterMs }

/-- The `$capMode.onchange` handler: `saveCfg({capMode: value || 'post'})`. -/
def saveCapModeChange (store : StoredCfg) (v : String) : StoredCfg :=
  saveCfg store { capMode := some (strOr v "post") }

/-- The `$midDelay.onchange` handler:
`saveCfg({midDelayMs: Math.max(0, parseInt(value || '50', 10) || 50)})`. -/
def saveMidDelayChange (store : StoredCfg) (raw : String) : StoredCfg :=
  saveCfg store { midDelayMs := some (max 0 (fieldInt raw "50" 50)) }

/-- The `$wait.onchange` handler:
`saveCfg({waitAfterMs: parseInt(value || '400', 10) || 400})`. -/
def saveWaitChange (store : StoredCfg) (raw : String) : StoredCfg :=
  saveCfg store { waitAfterMs := some (fieldInt raw "400" 400) }

/-- The field values restored into the panel at startup from the stored
blob; absent keys keep the HTML defaults. -/
structure RestoredPanel where
  xpselVal : String
  capModeVal : String
  midDelayVal : String
  waitVal : String
deriving DecidableEq

/-- The startup restore block: copy each stored field into the matching
panel input when present (numbers via `String(...)`). -/
def restoreCfg (cfg : StoredCfg) : RestoredPanel :=
  { xpselVal := match cfg.xpathSelector with | some s => s | none => ""
  , capModeVal := match cfg.capMode with | some s => s | none => "post"
  , midDelayVal := match cfg.midDelayMs with | some n => toString n | none => "50"
  , waitVal := match cfg.waitAfterMs with | some n => toString n | none => "400" }

/-- Visibility of the two capture-timing fields. -/
structure CaptureUIVis where
  midDelayVisible : Bool
  waitVisible : Bool
deriving DecidableEq

/-- `updateCaptureUI()`: in `mid` mode show the mid-delay field and hide
the wait-after field; otherwise the reverse. -/
def updateCaptureUI (capModeVal : String) : CaptureUIVis :=
  let mode := strOr capModeVal "post"
  let isMid := mode = "mid"
  { midDelayVisible := isMid, waitVisible := ¬isMid }

/-- One run of `clickOnce` in `scheduleRefreshClicks`, counting actual
button clicks: on each tick look up the refresh button (`p count` says
whether tick number `count` finds it), click it if found, increment the
counter, and reschedule while `count < times`. -/
def clickOnceRun (p : Nat → Bool) (times count : Nat) : Nat :=
  let clicked : Nat := if p count then 1 else 0
  if _h : count + 1 < times then clicked + clickOnceRun p times (count + 1)
  else clicked
termination_by times - count

/-- The same recursion counting ticks (i.e. `clickOnce` invocations)
instead of clicks. -/
def clickOnceTicks (times count : Nat) : Nat :=
  if _h : count + 1 < times then 1 + clickOnceTicks times (count + 1)
  else 1
termination_by times - count

/-- `scheduleRefreshClicks(times, delay)`: total number of clicks fired
at the refresh control, given which ticks find the control.  The first
tick is scheduled unconditionally. -/
def scheduleRefreshClicks (p : Nat → Bool) (times : Nat) : Nat :=
  clickOnceRun p times 0

/-- Number of ticks executed by `scheduleRefreshClicks(times, delay)`. -/
def refreshTicks (times : Nat) : Nat :=
  clickOnceTicks times 0

/-- Modelled from the spec: the bridge service's interpretation of the
swipe fields (the service, `adbgetevent/bridge_server.py`, is not among
the sources; its documented contract says that when a direction among
up/down/left/right and a distance are provided, `swipe` ignores `dx`/`dy`
and moves by `distance` pixels from the element center along
`direction`). -/
def effectiveMovement (p : Payload) : Int × Int :=
  match p.direction, p.distance with
  | some d, some dist =>
    if d = "up" then (0, -dist)
    else if d = "down" then (0, dist)
    else if d = "left" then (-dist, 0)
    else if d = "right" then (dist, 0)
    else (p.dx.getD 0, p.dy.getD 0)
  | _, _ => (p.dx.getD 0, p.dy.getD 0)

/-- The direction/distance movement vector used by `effectiveMovement`. -/
def dirVec (d : String) (dist : Int) : Int × Int :=
  if d = "up" then (0, -dist)
  else if d = "down" then (0, dist)
  else if d = "left" then (-dist, 0)
  else (dist, 0)

/-! ### Lemmas about the rectangle matcher -/

theorem takeWhile_digits_of_append (d : List Char) (c : Char) (t : List Char)
    (hd : ∀ x ∈ d, Char.isDigit x = true) (hc : Char.isDigit c = false) :
    (d ++ c :: t).takeWhile Char.isDigit = d ∧ (d ++ c :: t).dropWhile Char.isDigit = c :: t := by
  induction d with
  | nil => simp [List.takeWhile_cons, List.dropWhile_cons, hc]
  | cons x xs ih =>
    have hx : Char.isDigit x = true := hd x (by simp)
    have ihh := ih (fun y hy => hd y (by simp [hy]))
    simp [List.takeWhile_cons, List.dropWhile_cons, hx, ihh.1, ihh.2]

theorem expectChar_eq_some {c : Char} {s r : List Char} (h : expectChar c s = some r) :
    s = c :: r := by
  cases s with
  | nil => simp [expectChar] at h
  | cons x xs =>
    simp only [expectChar] at h
    split at h
    · rename_i hx
      cases h
      rw [hx]
    · cases h

theorem expectChar_cons (c : Char) (t : List Char) : expectChar c (c :: t) = some t := by
  simp [expectChar]

theorem expectDigits_eq_some {s r : List Char} (h : expectDigits s = some r) :
    ∃ d, d ≠ [] ∧ (∀ x ∈ d, Char.isDigit x = true) ∧ s = d ++ r := by
  unfold expectDigits at h
  split at h
  · cases h
  · rename_i hne
    cases h
    refine ⟨s.takeWhile Char.isDigit, ?_, ?_, ?_⟩
    · intro hnil
      rw [hnil] at hne
      simp at hne
    · exact fun x hx => List.mem_takeWhile_imp hx
    · exact (List.takeWhile_append_dropWhile Char.isDigit s).symm

theorem expectDigits_append (d : List Char) (c : Char) (t : List Char)
    (hne : d ≠ []) (hd : ∀ x ∈ d, Char.isDigit x = true) (hc : Char.isDigit c = false) :
    expectDigits (d ++ c :: t) = some (c :: t) := by
  obtain ⟨htake, hdrop⟩ := takeWhile_digits_of_append d c t hd hc
  unfold expectDigits
  rw [htake, hdrop]
  simp [hne]

theorem matchCoordPair_shape {s r : List Char} (h : matchCoordPair s = some r) :
    ∃ d1 d2, d1 ≠ [] ∧ d2 ≠ [] ∧ (∀ x ∈ d1, Char.isDigit x = true) ∧
      (∀ x ∈ d2, Char.isDigit x = true) ∧
      s = '[' :: (d1 ++ ',' :: (d2 ++ ']' :: r)) := by
  unfold matchCoordPair at h
  obtain ⟨r1, h1, h⟩ := Option.bind_eq_some.mp h
  obtain ⟨r2, h2, h⟩ := Option.bind_eq_some.mp h
  obtain ⟨r3, h3, h⟩ := Option.bind_eq_some.mp h
  obtain ⟨r4, h4, h5⟩ := Option.bind_eq_some.mp h
  have e1 := expectChar_eq_some h1
  obtain ⟨d1, hd1ne, hd1dig, e2⟩ := expectDigits_eq_some h2
  have e3 := expectChar_eq_some h3
  obtain ⟨d2, hd2ne, hd2dig, e4⟩ := expectDigits_eq_some h4
  have e5 := expectChar_eq_some h5
  refine ⟨d1, d2, hd1ne, hd2ne, hd1dig, hd2dig, ?_⟩
  rw [e1, e2, e3, e4, e5]

theorem matchCoordPair_eval (d1 d2 r : List Char)
    (h1 : d1 ≠ []) (h2 : d2 ≠ []) (hd1 : ∀ x ∈ d1, Char.isDigit x = true)
    (hd2 : ∀ x ∈ d2, Char.isDigit x = true) :
    matchCoordPair ('[' :: (d1 ++ ',' :: (d2 ++ ']' :: r))) = some r := by
  unfold matchCoordPair
  rw [expectChar_cons]
  simp only [Option.some_bind]
  rw [expectDigits_append d1 ',' (d2 ++ ']' :: r) h1 hd1 (by decide)]
  simp only [Option.some_bind]
  rw [expectChar_cons]
  simp only [Option.some_bind]
  rw [expectDigits_append d2 ']' r h2 hd2 (by decide)]
  simp only [Option.some_bind]
  rw [expectChar_cons]

theorem matchCoordPair_extend {s r : List Char} (t : List Char)
    (h : matchCoordPair s = some r) :
    matchCoordPair (s ++ t) = some (r ++ t) := by
  obtain ⟨d1, d2, h1, h2, hd1, hd2, hs⟩ := matchCoordPair_shape h
  subst hs
  have heq : ('[' :: (d1 ++ ',' :: (d2 ++ ']' :: r))) ++ t
      = '[' :: (d1 ++ ',' :: (d2 ++ ']' :: (r ++ t))) := by simp
  rw [heq, matchCoordPair_eval d1 d2 (r ++ t) h1 h2 hd1 hd2]

theorem matchCoordPair_split {s r : List Char} (h : matchCoordPair s = some r) :
    ∃ m, s = m ++ r ∧ matchCoordPair m = some [] := by
  obtain ⟨d1, d2, h1, h2, hd1, hd2, hs⟩ := matchCoordPair_shape h
  refine ⟨'[' :: (d1 ++ ',' :: (d2 ++ [']'])), ?_, ?_⟩
  · rw [hs]
    simp
  · exact matchCoordPair_eval d1 d2 [] h1 h2 hd1 hd2

theorem matchBoundsAt_extend {s r : List Char} (t : List Char)
    (h : matchBoundsAt s = some r) :
    matchBoundsAt (s ++ t) = some (r ++ t) := by
  unfold matchBoundsAt at h ⊢
  obtain ⟨m1, hm1, hm2⟩ := Option.bind_eq_some.mp h
  rw [matchCoordPair_extend t hm1]
  simp only [Option.some_bind]
  exact matchCoordPair_extend t hm2

theorem matchBoundsAt_split {s r : List Char} (h : matchBoundsAt s = some r) :
    ∃ m, s = m ++ r ∧ matchBoundsAt m = some [] := by
  unfold matchBoundsAt at h
  obtain ⟨m1, hm1, hm2⟩ := Option.bind_eq_some.mp h
  obtain ⟨a, ha, haE⟩ := matchCoordPair_split hm1
  obtain ⟨b, hb, hbE⟩ := matchCoordPair_split hm2
  refine ⟨a ++ b, ?_, ?_⟩
  · rw [ha, hb, List.append_assoc]
  · unfold matchBoundsAt
    have hab : matchCoordPair (a ++ b) = some b := by
      have := matchCoordPair_extend b haE
      simpa using this
    rw [hab]
    simpa using hbE

theorem exactBoundsForm_iff (m : List Char) :
    exactBoundsForm m = true ↔ matchBoundsAt m = some [] := by
  unfold exactBoundsForm
  exact beq_iff_eq

/-- `BOUNDS_RE.test(s)` holds exactly when some substring of `s` is a
full rectangle of the form `[d+,d+][d+,d+]`. -/
theorem boundsReTest_iff_has_exact (s : List Char) :
    boundsReTest s = true ↔
      ∃ l m r, s = l ++ m ++ r ∧ exactBoundsForm m = true := by
  induction s with
  | nil =>
    constructor
    · intro h
      cases h
    · rintro ⟨l, m, r, hs, hm⟩
      have hnil := List.append_eq_nil.mp (List.append_eq_nil.mp hs.symm).1
      rw [hnil.2] at hm
      exact absurd hm (by decide)
  | cons c cs ih =>
    constructor
    · intro h
      rcases Bool.or_eq_true _ _ |>.mp h with h1 | h2
      · obtain ⟨r, hr⟩ := Option.isSome_iff_exists.mp h1
        obtain ⟨m, hm, hE⟩ := matchBoundsAt_split hr
        exact ⟨[], m, r, by simpa using hm, (exactBoundsForm_iff m).mpr hE⟩
      · obtain ⟨l, m, r, h1, h2⟩ := ih.mp h2
        exact ⟨c :: l, m, r, by simp [h1], h2⟩
    · rintro ⟨l, m, r, hs, hm⟩
      cases l with
      | nil =>
        have hE : matchBoundsAt m = some [] := (exactBoundsForm_iff m).mp hm
        have hmr : matchBoundsAt (m ++ r) = some r := by
          have := matchBoundsAt_extend r hE
          simpa using this
        have hcs : matchBoundsAt (c :: cs) = some r := by
          rw [show c :: cs = m ++ r from by simpa using hs]
          exact hmr
        show ((matchBoundsAt (c :: cs)).isSome || boundsReTest cs) = true
        rw [hcs]
        rfl
      | cons c' l' =>
        have hcc : c = c' ∧ cs = l' ++ m ++ r := by
          have : c :: cs = c' :: (l' ++ m ++ r) := by simpa using hs
          exact ⟨(List.cons.injEq _ _ _ _ ▸ this).1, (List.cons.injEq _ _ _ _ ▸ this).2⟩
        have hrec : boundsReTest cs = true := ih.mpr ⟨l', m, r, hcc.2, hm⟩
        show ((matchBoundsAt (c :: cs)).isSome || boundsReTest cs) = true
        rw [hrec]
        simp

/-! ### Claim theorems -/

/-- C2 counterexample: the string `"a[1,2][3,4]"` is not of the exact
form `[<uint>,<uint>][<uint>,<uint>]`, yet the validation used before a
network send (`BOUNDS_RE.test`) accepts it, and the manual send button
does post a request with it as `bounds` — refuting "accepts s iff s has
exactly the form". -/
theorem c2_bounds_validation_counterexample :
    exactBoundsForm "a[1,2][3,4]".data = false ∧
    boundsReTest "a[1,2][3,4]".data = true ∧
    manualSend { bdField := "a[1,2][3,4]" } =
      SendOutcome.posted none (PostResult.sent
        { action := "short-click", durationMs := some 600, tap := true
        , midCapture := none, midDelayMs := none, waitAfterMs := some 400
        , text := none, dx := none, dy := none, direction := none
        , distance := none, bounds := some "a[1,2][3,4]", xpath := none }) := by
  refine ⟨by decide, by decide, by decide⟩

/-- C2 amended: the rectangle validation (`BOUNDS_RE.test`) accepts a
string iff it CONTAINS a substring of the form
`[<uint>,<uint>][<uint>,<uint>]` (the regular expression is unanchored);
any string it rejects leads to a validation status message and no
network send from the manual send button. -/
theorem c2_bounds_validation_amended (s : List Char) (st : PanelState)
    (hact : actionOf st ≠ "back")
    (hrej : boundsReTest (trimJS st.bdField).data = false) :
    (boundsReTest s = true ↔ ∃ l m r, s = l ++ m ++ r ∧ exactBoundsForm m = true) ∧
    manualSend st = SendOutcome.statusOnly "请填写有效的 Bounds（形如 [x1,y1][x2,y2]）" ∧
    fetchesOf (manualSend st) = [] := by
  refine ⟨boundsReTest_iff_has_exact s, ?_, ?_⟩ <;>
    simp [manualSend, hact, hrej, fetchesOf]

/-- C2 witness: instantiating the amended claim at a concrete rejected
panel state and a concrete string. -/
theorem c2_bounds_validation_witness :
    (boundsReTest "[7,8][9,10]".data = true ↔
      ∃ l m r, "[7,8][9,10]".data = l ++ m ++ r ∧ exactBoundsForm m = true) ∧
    manualSend { act := "input", bdField := "nope" } =
      SendOutcome.statusOnly "请填写有效的 Bounds（形如 [x1,y1][x2,y2]）" ∧
    fetchesOf (manualSend { act := "input", bdField := "nope" }) = [] :=
  c2_bounds_validation_amended "[7,8][9,10]".data
    { act := "input", bdField := "nope" } (by decide) (by decide)

/-- The body the script actually builds in the C1 scenario (action field
holding `tap`, capture mode `post`, wait `400`, rectangle
`[10,20][110,70]`). -/
def c1BuiltPayload : Payload :=
  { action := "tap", durationMs := some 600, tap := true
  , midCapture := none, midDelayMs := none, waitAfterMs := some 400
  , text := none, dx := none, dy := none, direction := none
  , distance := none, bounds := some "[10,20][110,70]", xpath := none }

/-- The payload the claim says is produced: exactly
`{action, bounds, tap, waitAfterMs}` and no other fields. -/
def c1ClaimedPayload : Payload :=
  { action := "tap", durationMs := none, tap := true
  , midCapture := none, midDelayMs := none, waitAfterMs := some 400
  , text := none, dx := none, dy := none, direction := none
  , distance := none, bounds := some "[10,20][110,70]", xpath := none }

/-- C1 counterexample: in the claimed scenario the builder does NOT
produce exactly `{action, bounds, tap, waitAfterMs}` — the body it posts
additionally carries `durationMs: 600` (`postSelection` always includes
`durationMs`), so the claimed four-field payload is wrong. -/
theorem c1_tap_scenario_counterexample :
    postSelection { act := "tap" } "[10,20][110,70]" = PostResult.sent c1BuiltPayload ∧
    c1BuiltPayload.durationMs = some 600 ∧
    c1BuiltPayload ≠ c1ClaimedPayload := by
  refine ⟨by decide, by decide, by decide⟩

/-- C1 amended: the scenario produces the payload
`{action:"tap", durationMs:600, bounds:"[10,20][110,70]", tap:true,
waitAfterMs:400}` (the builder always adds `durationMs`, here its
default 600); the 200 response with `ok:true, elem_id:"elem_3",
center:{x:60,y:45}` yields the status text
`OK elem=elem_3 center=(60,45)`, which contains `elem_3` and `(60,45)`,
and triggers exactly one refresh-scheduler invocation. -/
theorem c1_tap_scenario_amended :
    postSelectionRun { act := "tap" } "[10,20][110,70]"
      { respOk := true, status := 200
      , data := { ok := true, elemId := "elem_3", centerX := 60, centerY := 45 } } =
      { fetched := [c1BuiltPayload]
      , statusText := "OK elem=elem_3 center=(60,45)"
      , refreshInvocations := 1 } ∧
    "elem_3".data <:+: "OK elem=elem_3 center=(60,45)".data ∧
    "(60,45)".data <:+: "OK elem=elem_3 center=(60,45)".data := by
  refine ⟨by decide, by decide, by decide⟩

/-- C3 amended: for EVERY panel state the built body carries
`durationMs` (its value is `Math.max(1, parseInt(duration field) || 600)`),
no matter which action is selected — `tap`, `input` and `back` included. -/
theorem c3_duration_always_present (st : PanelState) :
    (buildBody st).durationMs = some (max 1 (fieldInt st.durField "600" 600)) := by
  rfl

/-- C3 counterexample: with the default short-click (tap) action the
built body still contains `durationMs` (600), refuting "for tap, input,
and back the payload omits durationMs". -/
theorem c3_duration_counterexample :
    (buildBody { act := "short-click" }).action = "short-click" ∧
    (buildBody { act := "short-click" }).durationMs = some 600 ∧
    (buildBody { act := "back" }).durationMs ≠ none ∧
    (buildBody { act := "input" }).durationMs ≠ none := by
  refine ⟨by decide, by decide, by decide, by decide⟩

/-- C4: for any action other than `back`, when no pattern-valid
rectangle is available — the host yields nothing (`extractBounds` is
absent) and the panel Bounds field fails the pattern — the auto-send
path and the manual send button both abort with a missing/invalid-Bounds
status message and no HTTP request is made. -/
theorem c4_missing_bounds_aborts (st : PanelState) (h : HostState)
    (hact : actionOf st ≠ "back") (hauto : st.autoChecked = true)
    (hext : extractBounds h = none)
    (hrej : boundsReTest (trimJS st.bdField).data = false) :
    sendCurrentSelection st h =
      SendOutcome.statusOnly "未找到有效 Bounds（请先在 UIAutodev 中选中一个节点）" ∧
    fetchesOf (sendCurrentSelection st h) = [] ∧
    manualSend st =
      SendOutcome.statusOnly "请填写有效的 Bounds（形如 [x1,y1][x2,y2]）" ∧
    fetchesOf (manualSend st) = [] := by
  refine ⟨?_, ?_, ?_, ?_⟩ <;>
    simp [sendCurrentSelection, manualSend, hact, hauto, hext, hrej, fetchesOf]

/-- C4 witness: action `input`, auto-send on, no host selection, empty
Bounds field. -/
theorem c4_missing_bounds_witness :
    sendCurrentSelection { act := "input" } {} =
      SendOutcome.statusOnly "未找到有效 Bounds（请先在 UIAutodev 中选中一个节点）" ∧
    fetchesOf (sendCurrentSelection { act := "input" } {}) = [] ∧
    manualSend { act := "input" } =
      SendOutcome.statusOnly "请填写有效的 Bounds（形如 [x1,y1][x2,y2]）" ∧
    fetchesOf (manualSend { act := "input" }) = [] :=
  c4_missing_bounds_aborts { act := "input" } {} (by decide) (by decide)
    (by decide) (by decide)

/-- C5: for a swipe with a non-`custom` direction (one of
up/down/left/right) the effective movement of the built request is
determined by direction and distance alone — it equals the direction
vector and is unchanged by any values in the dx/dy panel fields. -/
theorem c5_swipe_direction_ignores_dxdy (st : PanelState)
    (hact : actionOf st = "swipe")
    (hdir : toLowerJS (strOr st.dirField "custom") = "up" ∨
            toLowerJS (strOr st.dirField "custom") = "down" ∨
            toLowerJS (strOr st.dirField "custom") = "left" ∨
            toLowerJS (strOr st.dirField "custom") = "right") :
    effectiveMovement (buildBody st) =
      dirVec (toLowerJS (strOr st.dirField "custom")) (fieldInt st.distField "0" 0) ∧
    ∀ dx' dy', effectiveMovement (buildBody { st with dxField := dx', dyField := dy' }) =
      effectiveMovement (buildBody st) := by
  have hact' : toLowerJS (strOr st.act "short-click") = "swipe" := hact
  rcases hdir with hd | hd | hd | hd <;>
    exact ⟨by simp [effectiveMovement, buildBody, actionOf, dirVec, hact', hd],
           fun dx' dy' => by simp [effectiveMovement, buildBody, actionOf, hact', hd]⟩

/-- C5 witness: a swipe up of 120 pixels with non-zero dx/dy fields. -/
theorem c5_swipe_direction_witness :
    effectiveMovement (buildBody { act := "swipe", dirField := "up", distField := "120"
                                 , dxField := "33", dyField := "-7" }) =
      dirVec (toLowerJS (strOr "up" "custom")) (fieldInt "120" "0" 0) ∧
    ∀ dx' dy',
      effectiveMovement (buildBody { act := "swipe", dirField := "up", distField := "120"
                                   , dxField := dx', dyField := dy' }) =
      effectiveMovement (buildBody { act := "swipe", dirField := "up", distField := "120"
                                   , dxField := "33", dyField := "-7" }) :=
  c5_swipe_direction_ignores_dxdy
    { act := "swipe", dirField := "up", distField := "120", dxField := "33", dyField := "-7" }
    (by decide) (Or.inl (by decide))

/-- C6: with action `back` the send proceeds regardless of the rectangle
argument and of the Bounds field, and the posted body contains neither
`bounds` nor `xpath`. -/
theorem c6_back_omits_bounds (st : PanelState) (bd : String)
    (hact : actionOf st = "back") :
    postSelection st bd = PostResult.sent (buildBody st) ∧
    (buildBody st).bounds = none ∧
    (buildBody st).xpath = none ∧
    manualSend st = SendOutcome.posted none (PostResult.sent (buildBody st)) := by
  refine ⟨?_, rfl, rfl, ?_⟩
  · simp [postSelection, hact]
  · simp [manualSend, postSelection, hact]

/-- C6 witness: action `back` with a garbage rectangle everywhere. -/
theorem c6_back_omits_bounds_witness :
    postSelection { act := "back", bdField := "garbage" } "not-a-rect" =
      PostResult.sent (buildBody { act := "back", bdField := "garbage" }) ∧
    (buildBody { act := "back", bdField := "garbage" }).bounds = none ∧
    (buildBody { act := "back", bdField := "garbage" }).xpath = none ∧
    manualSend { act := "back", bdField := "garbage" } =
      SendOutcome.posted none (PostResult.sent (buildBody { act := "back", bdField := "garbage" })) :=
  c6_back_omits_bounds { act := "back", bdField := "garbage" } "not-a-rect" (by decide)

/-- C7: a click whose target is inside the overlay panel's subtree, or
on/inside the located refresh control, never reaches
`sendCurrentSelection` — trusted or synthetic alike, for every panel
field configuration: no network send results. -/
theorem c7_ignored_click_never_sends (st : PanelState) (h : HostState) (e : ClickEvent)
    (hyp : e.inPanel = true ∨ e.inRefresh = true) :
    clickListener st h e = SendOutcome.noSend ∧
    fetchesOf (clickListener st h e) = [] := by
  have hig : shouldIgnoreClick e = true := by
    rcases hyp with h1 | h1 <;> simp [shouldIgnoreClick, h1]
  exact ⟨by simp [clickListener, hig], by simp [clickListener, hig, fetchesOf]⟩

/-- C7 witness: a synthetic (untrusted) click on the refresh control. -/
theorem c7_ignored_click_witness :
    clickListener {} {} { inRefresh := true, isTrusted := false } = SendOutcome.noSend ∧
    fetchesOf (clickListener {} {} { inRefresh := true, isTrusted := false }) = [] :=
  c7_ignored_click_never_sends {} {} { inRefresh := true, isTrusted := false }
    (Or.inr (by decide))

/-- C8: saving capture mode `mid` and then mid-delay `75` into any prior
stored configuration and restoring on a fresh load yields a panel whose
capture-mode select holds `mid` and whose mid-delay field holds `75`,
and `updateCaptureUI` then shows the mid-delay field and hides the
wait-after field. -/
theorem c8_config_roundtrip (store : StoredCfg) :
    (restoreCfg (saveMidDelayChange (saveCapModeChange store "mid") "75")).capModeVal = "mid" ∧
    (restoreCfg (saveMidDelayChange (saveCapModeChange store "mid") "75")).midDelayVal = "75" ∧
    updateCaptureUI
        (restoreCfg (saveMidDelayChange (saveCapModeChange store "mid") "75")).capModeVal =
      { midDelayVisible := true, waitVisible := false } := by
  exact ⟨rfl, rfl, rfl⟩

/-- Tick/click counting invariant of the `clickOnce` loop: starting from
counter `count` with `times = count + rem + 1` requested clicks, exactly
`rem + 1` further ticks run, and at most that many clicks fire. -/
theorem clickOnce_counts (p : Nat → Bool) :
    ∀ rem count times, times = count + rem + 1 →
      clickOnceTicks times count = rem + 1 ∧ clickOnceRun p times count ≤ rem + 1 := by
  intro rem
  induction rem with
  | zero =>
    intro count times ht
    have hlt : ¬ (count + 1 < times) := by omega
    constructor
    · rw [clickOnceTicks.eq_def, dif_neg hlt]
    · rw [clickOnceRun.eq_def]
      simp only [hlt, dite_false, dif_neg]
      cases hp : p count <;> simp [hp]
  | succ n ihn =>
    intro count times ht
    have hlt : count + 1 < times := by omega
    have ih := ihn (count + 1) times (by omega)
    constructor
    · rw [clickOnceTicks.eq_def, dif_pos hlt, ih.1]
      omega
    · have h2 := ih.2
      rw [clickOnceRun.eq_def]
      simp only [hlt, dite_true, dif_pos]
      cases hp : p count <;> simp [hp] <;> omega

/-- C9 counterexample: `scheduleRefreshClicks(0, i)` does not fire "up
to 0" clicks — the first tick is scheduled unconditionally, so one tick
runs and, when the control is present, one click fires. -/
theorem c9_schedule_zero_counterexample :
    scheduleRefreshClicks (fun _ => true) 0 = 1 ∧ refreshTicks 0 = 1 := by
  constructor <;>
    simp [scheduleRefreshClicks, refreshTicks, clickOnceRun, clickOnceTicks]

/-- C9 amended: for `times ≥ 1` the scheduler runs exactly `times`
ticks — a tick on which the control cannot be located still counts and
later ticks keep attempting (the tick count does not depend on where
the control is found) — and fires at most `times` clicks; for
`times = 0` a single tick still runs. -/
theorem c9_refresh_schedule_amended (p : Nat → Bool) (times : Nat) (h : 1 ≤ times) :
    refreshTicks times = times ∧ scheduleRefreshClicks p times ≤ times := by
  obtain ⟨rem, hrem⟩ : ∃ rem, times = 0 + rem + 1 := ⟨times - 1, by omega⟩
  have hc := clickOnce_counts p rem 0 times hrem
  constructor
  · unfold refreshTicks
    rw [hc.1]
    omega
  · unfold scheduleRefreshClicks
    have := hc.2
    omega

/-- C9 witness: three requested clicks with the control never found
still runs three ticks. -/
theorem c9_refresh_schedule_witness :
    refreshTicks 3 = 3 ∧ scheduleRefreshClicks (fun _ => false) 3 ≤ 3 :=
  c9_refresh_schedule_amended (fun _ => false) 3 (by decide)

/-- C10: the stop handler unchecks auto-send before the
final-screenshot POST (the resulting panel state is the same for every
network outcome), it stays unchecked whatever the POST returns, and no
subsequent click — trusted or not, ignored or not — produces a send
until auto-send is re-enabled. -/
theorem c10_stop_disables_autosend (st : PanelState) (net : StopNet)
    (h : HostState) (e : ClickEvent) :
    ((stopClick st net).1).autoChecked = false ∧
    sendCurrentSelection (stopClick st net).1 h = SendOutcome.noSend ∧
    fetchesOf (clickListener (stopClick st net).1 h e) = [] := by
  have hauto : ((stopClick st net).1).autoChecked = false := by
    cases net <;> rfl
  refine ⟨hauto, ?_, ?_⟩
  · simp [sendCurrentSelection, hauto]
  · unfold clickListener
    split
    · rfl
    · split
      · rfl
      · simp [sendCurrentSelection, hauto, fetchesOf]
